import Mathlib

/-!
Shallow embedding of the JTracker backend authentication core
(`src/modules/auth`): password hashing and token utilities (`utils.js`),
the in-memory token blacklist (`tokenBlacklist.js`), the service layer
(`service.js`, in both its plain and blacklist-aware iterations), and the
refresh-token model layer (`model.js`).

Time is carried explicitly: `nowMs` is `Date.now()` (milliseconds since
epoch); JWT claims (`iat`, `exp`) are in whole seconds, as produced by
`Math.floor(Date.now() / 1000)` inside the `jsonwebtoken` library.
-/

namespace JTracker

/-! ### Password hashing (`src/modules/auth/utils.js`) -/

/-- Result of `bcrypt.hash`.  bcrypt is modelled abstractly: a hash value
remembers which password it was derived from, and the fixed dummy hash string
used by `login` (an invalid bcrypt hash, comparing false against everything)
is a distinguished value. -/
inductive HashVal where
  | ofPassword (pw : String)
  | dummy
deriving DecidableEq, Repr

/-- A JavaScript argument that may or may not be a string.  `nonString true`
is a truthy non-string value (e.g. a number or object), `nonString false` a
falsy one (`null`, `undefined`, `0`, `false`). -/
inductive JsArg where
  | str (s : String)
  | nonString (truthy : Bool)
deriving DecidableEq, Repr

/-- The fixed punctuation set of the password symbol regex
`/[!@#$%^&*()_+\-=\[\]{};':"\\|,.<>\/?]/` in `hashPassword`. -/
def passwordSymbols : List Char :=
  ['!', '@', '#', '$', '%', '^', '&', '*', '(', ')', '_', '+', '-', '=',
   '[', ']', '\x7b', '\x7d', ';', '\'', ':', '"', '\\', '|', ',', '.',
   '<', '>', '/', '?']

/-- The regex test `/[A-Z]/.test(password)`. -/
def hasUppercase (s : String) : Bool :=
  s.data.any fun c => 'A' ≤ c && c ≤ 'Z'

/-- The symbol regex test in `hashPassword`. -/
def hasSymbol (s : String) : Bool :=
  s.data.any fun c => passwordSymbols.contains c

/-- Whitespace stripped by `String.prototype.trim` (the common ASCII cases). -/
def isJsSpace (c : Char) : Bool :=
  c = ' ' || c = '\t' || c = '\n' || c = '\r'

/-- JavaScript `.trim()`: strips leading and trailing whitespace. -/
def jsTrim (s : String) : String :=
  ⟨((s.data.dropWhile isJsSpace).reverse.dropWhile isJsSpace).reverse⟩

/-- `hashPassword` from `utils.js`.  The JS guards, in source order:
`!password` (falsy: non-string falsy values and the empty string),
`typeof password !== 'string'`, length below 8, length above 15, no
uppercase letter, no symbol; otherwise `bcrypt.hash(password, rounds)`. -/
def hashPassword (p : JsArg) : Except String HashVal :=
  match p with
  | .nonString false => .error "Password is required"
  | .nonString true => .error "Password must be a string"
  | .str s =>
    if s.length = 0 then .error "Password is required"
    else if s.length < 8 then .error "Password must be at least 8 characters long"
    else if s.length > 15 then .error "Password must be at most 15 characters long"
    else if hasUppercase s = false then .error "Password must contain at least one capital letter"
    else if hasSymbol s = false then .error "Password must contain at least one symbol"
    else .ok (.ofPassword s)

/-- `bcrypt.compare`: true exactly when the candidate password is the one the
hash was derived from; always false against the malformed dummy hash. -/
def bcryptCompare (password : String) (hash : HashVal) : Bool :=
  match hash with
  | .ofPassword pw => password = pw
  | .dummy => false

/-- `comparePassword` from `utils.js`: returns `false` (rather than raising)
for non-string or blank input, otherwise defers to `bcrypt.compare`. -/
def comparePassword (p : JsArg) (hash : HashVal) : Bool :=
  match p with
  | .nonString _ => false
  | .str s => if jsTrim s = "" then false else bcryptCompare s hash

/-! ### Token codec (`src/modules/auth/utils.js` + `jsonwebtoken`) -/

/-- The claims object the services sign: `{ userId, email }`. -/
structure Claims where
  userId : Nat
  email : String
deriving DecidableEq, Repr

/-- A well-formed signed JWT: the signed payload (claims plus the `iat` and
`exp` registered claims, in seconds) and the secret whose signature it
carries. -/
structure SignedToken where
  claims : Claims
  iat : Nat
  exp : Option Nat
  secret : String
deriving DecidableEq, Repr

/-- A candidate token string: either garbage (fails JWT decoding or signature
structure altogether) or a structurally well-formed signed token. -/
inductive Jwt where
  | malformed (raw : String)
  | signed (t : SignedToken)
deriving DecidableEq, Repr

/-- The two error names `verifyToken` distinguishes in its catch block:
`TokenExpiredError` and `JsonWebTokenError`. -/
inductive JwtError where
  | tokenExpired
  | jsonWebToken
deriving DecidableEq, Repr

/-- `jwt.verify(token, secret)`: signature is checked first (a missing secret
or wrong signature raises `JsonWebTokenError`, as does a malformed token),
then expiry: expired when `Math.floor(nowMs / 1000) >= exp`. -/
def jwtVerify (t : Jwt) (secret : Option String) (nowMs : Nat) :
    Except JwtError SignedToken :=
  match t, secret with
  | .malformed _, _ => .error .jsonWebToken
  | .signed _, none => .error .jsonWebToken
  | .signed st, some sec =>
    if st.secret = sec then
      match st.exp with
      | some e => if e ≤ nowMs / 1000 then .error .tokenExpired else .ok st
      | none => .ok st
    else .error .jsonWebToken

/-- Configuration read from the environment: `JWT_SECRET` (possibly absent)
and `maxAge = parseInt(process.env.JWT_EXPIRES_IN, 10) || 3600` seconds. -/
structure Config where
  jwtSecret : Option String
  maxAge : Nat
deriving DecidableEq, Repr

/-- `generateToken` from `utils.js`.  The payload the services pass is the
two-field `{ userId, email }` object, so the empty-payload and array guards
of the source are satisfied; the secret guard is modelled.  `jwt.sign` embeds
`iat = Math.floor(nowMs / 1000)` and `exp = iat + expiresIn` into the signed
payload (the callers pass no `expiresIn` option, so `maxAge` is used). -/
def generateToken (cfg : Config) (payload : Claims) (nowMs : Nat) :
    Except String SignedToken :=
  match cfg.jwtSecret with
  | none => .error "JWT_SECRET is not configured"
  | some sec =>
    .ok { claims := payload, iat := nowMs / 1000,
          exp := some (nowMs / 1000 + cfg.maxAge), secret := sec }

/-- The token argument as received by `verifyToken` and the services:
`absent` covers falsy or non-string values (rejected before any JWT work). -/
inductive TokenArg where
  | absent
  | str (t : Jwt)
deriving DecidableEq, Repr

/-- `verifyToken` from `utils.js`: throws for a falsy/non-string argument;
returns `null` (here `none`) for both `TokenExpiredError` and
`JsonWebTokenError`; returns the decoded payload otherwise.  (Other error
kinds, which the source re-throws, do not arise in this model.) -/
def verifyToken (arg : TokenArg) (secret : Option String) (nowMs : Nat) :
    Except String (Option SignedToken) :=
  match arg with
  | .absent => .error "Token must be a non-empty string"
  | .str t =>
    match jwtVerify t secret nowMs with
    | .ok d => .ok (some d)
    | .error .tokenExpired => .ok none
    | .error .jsonWebToken => .ok none

/-! ### Token blacklist (`src/modules/auth/tokenBlacklist.js`)

The JS `Map` keyed by token string is modelled as an association list with
`Map.set` replacing any previous binding. -/

abbrev Blacklist := List (Jwt × Nat)

/-- `blacklist.get(token)`. -/
def blGet (bl : Blacklist) (token : Jwt) : Option Nat :=
  (bl.find? fun p => p.1 = token).map fun p => p.2

/-- `blacklist.set(token, v)`: binds `token` to `v`, replacing any previous
binding. -/
def blSet (bl : Blacklist) (token : Jwt) (v : Nat) : Blacklist :=
  (token, v) :: bl.filter fun p => ¬ p.1 = token

/-- `blacklist.delete(token)`. -/
def blDelete (bl : Blacklist) (token : Jwt) : Blacklist :=
  bl.filter fun p => ¬ p.1 = token

/-- `cleanupExpiredTokens`: deletes every entry with `now > expiration`. -/
def cleanupExpiredTokens (bl : Blacklist) (nowMs : Nat) : Blacklist :=
  bl.filter fun p => ¬ nowMs > p.2

/-- `addToBlacklist(token, expiresIn)`: stores the absolute expiry
`Date.now() + expiresIn * 1000` and opportunistically sweeps expired entries
when the map size is a positive multiple of 100. -/
def addToBlacklist (bl : Blacklist) (token : Jwt) (expiresIn nowMs : Nat) :
    Blacklist :=
  if (blSet bl token (nowMs + expiresIn * 1000)).length > 0 ∧
      (blSet bl token (nowMs + expiresIn * 1000)).length % 100 = 0 then
    cleanupExpiredTokens (blSet bl token (nowMs + expiresIn * 1000)) nowMs
  else blSet bl token (nowMs + expiresIn * 1000)

/-- `isBlacklisted(token)`: `!expiration` is true both for an absent binding
and for a recorded expiry of `0` (JS falsiness), and returns `false` without
deleting; a present nonzero expiry with `Date.now() > expiration` is deleted
and reported `false`; otherwise the token is reported blacklisted.  Returns
the answer together with the updated store. -/
def isBlacklisted (bl : Blacklist) (token : Jwt) (nowMs : Nat) :
    Bool × Blacklist :=
  match blGet bl token with
  | none => (false, bl)
  | some e =>
    if e = 0 then (false, bl)
    else if nowMs > e then (false, blDelete bl token)
    else (true, bl)

/-! ### User model (`src/modules/auth/model.js`, Prisma-backed) -/

/-- A row of the `User` table (the `password` column holds the bcrypt hash). -/
structure User where
  id : Nat
  email : String
  name : String
  password : HashVal
deriving DecidableEq, Repr

/-- The sanitized user shape every model `select` returns (no password). -/
structure PublicUser where
  id : Nat
  email : String
  name : String
deriving DecidableEq, Repr

/-- Projection performed by the model-layer `select` clauses. -/
def sanitizeUser (u : User) : PublicUser :=
  { id := u.id, email := u.email, name := u.name }

/-- `findUserByEmail` (password excluded by the `select`). -/
def findUserByEmail (users : List User) (email : String) : Option PublicUser :=
  (users.find? fun u => u.email = email).map sanitizeUser

/-- `findUserByEmailWithPassword` (internal, includes the hash). -/
def findUserByEmailWithPassword (users : List User) (email : String) :
    Option User :=
  users.find? fun u => u.email = email

/-- `findUserById` (password excluded by the `select`). -/
def findUserById (users : List User) (id : Nat) : Option PublicUser :=
  (users.find? fun u => u.id = id).map sanitizeUser

/-- Fresh primary key chosen by the database on insert. -/
def nextUserId (users : List User) : Nat :=
  users.foldr (fun u m => max u.id m) 0 + 1

/-- `createUser`: inserts the row and returns the sanitized user. -/
def createUser (users : List User) (email : String) (passwordHash : HashVal)
    (name : String) : PublicUser × List User :=
  let u : User := { id := nextUserId users, email := email, name := name,
                    password := passwordHash }
  (sanitizeUser u, users ++ [u])

/-! ### Session service

Two iterations exist in the repository: `service.js` (plain, register throws
`'Email already exists'` on a duplicate) and the blacklist-aware iteration
(register hashes before the duplicate check and throws the generic
`'Registration failed'`; adds `logout` and the blacklist check in
`getCurrentUser`).  Both are embedded, suffixed `Svc` and `BL`.

Validation is embedded at the point the Zod schemas establish it: the
`register` theorems take already-validated field data (`RegisterValid`),
mirroring `parseWithErrorHandling(registerSchema, ...)` having succeeded;
`login` embeds `loginSchema` (trimmed email of length 1..254, raw password of
length 1..1000) since its failure behavior is part of claim C5. -/

/-- A JavaScript object field as seen by the Zod schemas: absent
(`undefined`), a string, or a non-string value. -/
inductive JsField where
  | missing
  | str (s : String)
  | nonString
deriving DecidableEq, Repr

/-- The `{ email: data?.email, password: data?.password }` object `login`
builds before validation. -/
structure LoginInput where
  email : JsField
  password : JsField
deriving DecidableEq, Repr

/-- `loginSchema.parse`: email must be a string that trims to length 1..254
(the trimmed value is the parse result); password must be a string of raw
length 1..1000.  `none` models a thrown `ZodError`. -/
def validateLogin (inp : LoginInput) : Option (String × String) :=
  match inp.email, inp.password with
  | .str e, .str p =>
    let et := jsTrim e
    if 1 ≤ et.length ∧ et.length ≤ 254 ∧ 1 ≤ p.length ∧ p.length ≤ 1000 then
      some (et, p)
    else none
  | _, _ => none

/-- The fixed dummy hash
`'$2b$10$dummyhashfordummycomparisontimingattackprevention'` of the
blacklist-aware `login` (not a valid bcrypt hash, compares false). -/
def dummyHash : HashVal := .dummy

/-- `login` from the blacklist-aware service: Zod failure, absent user and
wrong password all throw `'Invalid credentials'`; a password comparison runs
even when the user is absent (against `dummyHash`); on success issues a
token for `{ userId, email }` and returns the user without its password. -/
def login (cfg : Config) (users : List User) (inp : LoginInput) (nowMs : Nat) :
    Except String (PublicUser × SignedToken) :=
  match validateLogin inp with
  | none => .error "Invalid credentials"
  | some (em, pw) =>
    let user? := findUserByEmailWithPassword users em
    let hashToCompare := match user? with
      | some u => u.password
      | none => dummyHash
    let isPasswordValid := comparePassword (.str pw) hashToCompare
    -- `if (!user || !isPasswordValid) throw new Error('Invalid credentials')`
    match user? with
    | none => .error "Invalid credentials"
    | some u =>
      if isPasswordValid = false then .error "Invalid credentials"
      else
        match generateToken cfg { userId := u.id, email := u.email } nowMs with
        | .error m => .error m
        | .ok tok => .ok (sanitizeUser u, tok)

/-- Field data for `register` after `registerSchema` has accepted it
(trimmed email, password within the schema's shape, trimmed name). -/
structure RegisterValid where
  email : String
  password : String
  name : String
deriving DecidableEq, Repr

/-- `register` from `service.js`: duplicate check first, throwing
`'Email already exists'`; then hash, insert, token.  The pair's second
component is the user table after the call. -/
def registerSvc (cfg : Config) (users : List User) (v : RegisterValid)
    (nowMs : Nat) : Except String (PublicUser × SignedToken) × List User :=
  match findUserByEmail users v.email with
  | some _ => (.error "Email already exists", users)
  | none =>
    match hashPassword (.str v.password) with
    | .error m => (.error m, users)
    | .ok h =>
      let (u, users') := createUser users v.email h v.name
      match generateToken cfg { userId := u.id, email := u.email } nowMs with
      | .error m => (.error m, users')
      | .ok tok => (.ok (u, tok), users')

/-- `register` from the blacklist-aware service: looks up the existing user,
hashes the password unconditionally (timing normalization), and only then
throws the generic `'Registration failed'` if the email was taken. -/
def registerBL (cfg : Config) (users : List User) (v : RegisterValid)
    (nowMs : Nat) : Except String (PublicUser × SignedToken) × List User :=
  let existing := findUserByEmail users v.email
  match hashPassword (.str v.password) with
  | .error m => (.error m, users)
  | .ok h =>
    if existing.isSome then (.error "Registration failed", users)
    else
      let (u, users') := createUser users v.email h v.name
      match generateToken cfg { userId := u.id, email := u.email } nowMs with
      | .error m => (.error m, users')
      | .ok tok => (.ok (u, tok), users')

/-- Mutable state the blacklist-aware service operates on. -/
structure AuthState where
  users : List User
  blacklist : Blacklist
deriving DecidableEq, Repr

/-- `getCurrentUser` from the blacklist-aware service: token-schema failure
(absent/blank/non-string), then `verifyToken` (`null` result throws
`'Invalid or expired token'`), then the blacklist check (same message; the
lookup may evict a stale entry, so the state is threaded), then the JS-falsy
`!decoded.userId` guard, then the user lookup. -/
def getCurrentUser (cfg : Config) (st : AuthState) (arg : TokenArg)
    (nowMs : Nat) : Except String PublicUser × AuthState :=
  match arg with
  | .absent => (.error "Token is required", st)
  | .str t =>
    match verifyToken (.str t) cfg.jwtSecret nowMs with
    | .error m => (.error m, st)
    | .ok none => (.error "Invalid or expired token", st)
    | .ok (some d) =>
      let r := isBlacklisted st.blacklist t nowMs
      let st' : AuthState := { users := st.users, blacklist := r.2 }
      if r.1 then (.error "Invalid or expired token", st')
      else if d.claims.userId = 0 then
        (.error "Invalid token: missing userId", st')
      else
        match findUserById st.users d.claims.userId with
        | none => (.error "User not found", st')
        | some u => (.ok u, st')

/-- `logout` from the blacklist-aware service: validates and verifies the
token exactly like `getCurrentUser` (but never consults the blacklist), then
computes `expiresIn = decoded.exp ? Math.max(0, decoded.exp - now) : 3600`
(seconds; `decoded.exp` falsy also when 0, and `Math.max 0` is Nat
truncated subtraction) and records the token. -/
def logout (cfg : Config) (st : AuthState) (arg : TokenArg) (nowMs : Nat) :
    Except String String × AuthState :=
  match arg with
  | .absent => (.error "Token is required", st)
  | .str t =>
    match verifyToken (.str t) cfg.jwtSecret nowMs with
    | .error m => (.error m, st)
    | .ok none => (.error "Invalid or expired token", st)
    | .ok (some d) =>
      if d.claims.userId = 0 then (.error "Invalid token: missing userId", st)
      else
        let now := nowMs / 1000
        let expiresIn := match d.exp with
          | some e => if e = 0 then 3600 else e - now
          | none => 3600
        (.ok "Logout successful",
         { users := st.users,
           blacklist := addToBlacklist st.blacklist t expiresIn nowMs })

/-! ### Refresh token store (`src/modules/auth/model.js`) -/

/-- A row of the `RefreshToken` table.  `expiresAt` is a millisecond epoch
timestamp (a JS `Date`). -/
structure RefreshRecord where
  tokenHash : String
  userId : Nat
  expiresAt : Nat
  revoked : Bool
  replacedBy : Option String
deriving DecidableEq, Repr

abbrev RTStore := List RefreshRecord

/-- `findRefreshToken`: `findUnique` on the unique `tokenHash` column.  It
performs no expiry or revocation check itself. -/
def findRefreshToken (st : RTStore) (h : String) : Option RefreshRecord :=
  st.find? fun r => r.tokenHash = h

/-- `createRefreshToken`: inserts a row with the schema defaults
`revoked = false`, `replacedBy = null`; a unique-constraint violation on
`tokenHash` makes the insert fail. -/
def createRefreshToken (st : RTStore) (tokenHash : String)
    (userId expiresAt : Nat) : Except Unit (RefreshRecord × RTStore) :=
  if st.any fun r => r.tokenHash = tokenHash then .error ()
  else
    let r : RefreshRecord := { tokenHash := tokenHash, userId := userId,
                               expiresAt := expiresAt, revoked := false,
                               replacedBy := none }
    .ok (r, st ++ [r])

/-- The per-row effect of `revokeRefreshToken`: the row matching the unique
`tokenHash` gets `revoked = true` and its `replacedBy` link. -/
def revokeRow (h : String) (replacedBy : Option String) (r : RefreshRecord) :
    RefreshRecord :=
  if r.tokenHash = h then { r with revoked := true, replacedBy := replacedBy }
  else r

/-- `revokeRefreshToken(tokenHash, replacedBy)`: `update` of the unique row,
setting `revoked = true` and `replacedBy`; fails when no such row exists. -/
def revokeRefreshToken (st : RTStore) (h : String) (replacedBy : Option String) :
    Except Unit RTStore :=
  if st.any fun r => r.tokenHash = h then .ok (st.map (revokeRow h replacedBy))
  else .error ()

/-- `cleanupExpiredRefreshTokens`: `deleteMany` of rows that are expired
(`expiresAt < now`) or revoked. -/
def cleanupExpiredRefreshTokens (st : RTStore) (nowMs : Nat) : RTStore :=
  st.filter fun r => ¬ (r.expiresAt < nowMs ∨ r.revoked = true)

/-- Modelled from the spec: the `rotate` operation of the Refresh Token Store
(the service-layer `refreshSession` body) is absent from the repository
snapshot — only its model-layer primitives (`createRefreshToken`,
`revokeRefreshToken`) and its HTTP caller (`controller.refresh`) are present.
Per spec §4.4 it must, as a single atomic step, (a) mark the old record
revoked, (b) create the new record, (c) link old→new via `replacedBy`, and
if (b) fails the whole step must have no effect.  The returned state is the
store after the call (unchanged on any failure). -/
def rotate (st : RTStore) (oldHash newHash : String) (userId expiresAt : Nat) :
    Except Unit RefreshRecord × RTStore :=
  match revokeRefreshToken st oldHash (some newHash) with
  | .error _ => (.error (), st)
  | .ok st1 =>
    match createRefreshToken st1 newHash userId expiresAt with
    | .error _ => (.error (), st)
    | .ok (r, st2) => (.ok r, st2)

/-- Modelled from the spec: the validity check `refreshSession` applies to
the record returned by `findRefreshToken` (absent from the snapshot together
with `refreshSession` itself).  Per spec §4.4 the check must independently
verify `expiresAt` and `revoked`: the raw token is valid exactly when a
record exists, is not revoked, and is not expired. -/
def refreshTokenValid (st : RTStore) (h : String) (nowMs : Nat) : Bool :=
  match findRefreshToken st h with
  | none => false
  | some r => !r.revoked && decide (nowMs < r.expiresAt)

/-! ### Helper lemmas -/

/-- A password meeting all five constraints passes every guard of
`hashPassword`. -/
theorem hashPassword_ok (s : String) (h1 : 8 ≤ s.length) (h2 : s.length ≤ 15)
    (h3 : hasUppercase s = true) (h4 : hasSymbol s = true) :
    hashPassword (.str s) = .ok (.ofPassword s) := by
  simp only [hashPassword, h3, h4]
  rw [if_neg (by omega : ¬ s.length = 0), if_neg (by omega : ¬ s.length < 8),
    if_neg (by omega : ¬ s.length > 15)]
  simp

/-- Deleting a binding makes it unfindable. -/
theorem blGet_blDelete (bl : Blacklist) (t : Jwt) :
    blGet (blDelete bl t) t = none := by
  simp only [blGet, blDelete, Option.map_eq_none', List.find?_eq_none,
    List.mem_filter]
  intro p hp
  simp only [decide_not, Bool.not_eq_true', decide_eq_false_iff_not] at hp
  simp [hp.2]

/-- Example claims object used in concrete instances. -/
def demoClaims : Claims := { userId := 1, email := "a@b.com" }

/-- Example well-formed signed token used in concrete instances. -/
def demoToken (sec : String) (e : Nat) : SignedToken :=
  { claims := demoClaims, iat := 0, exp := some e, secret := sec }

/-! ### Claim theorems -/

/-- C8: `hashPassword` rejects a non-string password, a length outside 8..15,
a missing uppercase ASCII letter and a missing symbol from the fixed
punctuation set, each with a validation error naming the violated rule (the
empty string is caught by the JS falsiness guard and reported as required);
a password satisfying all five constraints is hashed without error. -/
theorem hashPassword_validation (s : String) :
    (hashPassword (.nonString true) = .error "Password must be a string") ∧
    (hashPassword (.nonString false) = .error "Password is required") ∧
    (8 ≤ s.length → s.length ≤ 15 → hasUppercase s = true → hasSymbol s = true →
      hashPassword (.str s) = .ok (.ofPassword s)) ∧
    (s.length = 0 → hashPassword (.str s) = .error "Password is required") ∧
    (1 ≤ s.length → s.length < 8 →
      hashPassword (.str s) = .error "Password must be at least 8 characters long") ∧
    (15 < s.length →
      hashPassword (.str s) = .error "Password must be at most 15 characters long") ∧
    (8 ≤ s.length → s.length ≤ 15 → hasUppercase s = false →
      hashPassword (.str s) = .error "Password must contain at least one capital letter") ∧
    (8 ≤ s.length → s.length ≤ 15 → hasUppercase s = true → hasSymbol s = false →
      hashPassword (.str s) = .error "Password must contain at least one symbol") := by
  refine ⟨rfl, rfl, fun h1 h2 h3 h4 => hashPassword_ok s h1 h2 h3 h4,
    fun h0 => ?_, fun ha hb => ?_, fun hc => ?_, fun h1 h2 h3 => ?_,
    fun h1 h2 h3 h4 => ?_⟩
  · simp [hashPassword, h0]
  · simp only [hashPassword]
    rw [if_neg (by omega : ¬ s.length = 0), if_pos hb]
  · simp only [hashPassword]
    rw [if_neg (by omega : ¬ s.length = 0), if_neg (by omega : ¬ s.length < 8),
      if_pos hc]
  · simp only [hashPassword, h3]
    rw [if_neg (by omega : ¬ s.length = 0), if_neg (by omega : ¬ s.length < 8),
      if_neg (by omega : ¬ s.length > 15)]
    simp
  · simp only [hashPassword, h3, h4]
    rw [if_neg (by omega : ¬ s.length = 0), if_neg (by omega : ¬ s.length < 8),
      if_neg (by omega : ¬ s.length > 15)]
    simp

/-- Witness for C8 at concrete inputs: a compliant password hashes, a
password without an uppercase letter is rejected with the matching rule. -/
theorem hashPassword_validation_witness :
    hashPassword (.str "Abcdef1!") = .ok (.ofPassword "Abcdef1!") ∧
    hashPassword (.str "abcdefg1") =
      .error "Password must contain at least one capital letter" :=
  ⟨(hashPassword_validation "Abcdef1!").2.2.1 (by decide) (by decide)
      (by decide) (by decide),
   (hashPassword_validation "abcdefg1").2.2.2.2.2.2.1 (by decide) (by decide)
      (by decide)⟩

/-- C9 (counterexample): two tokens issued for identical claims at the
different instants 0 ms and 500 ms are the SAME value — `jwt.sign` embeds
`iat` with whole-second granularity, so issuance within one second yields
identical tokens. -/
theorem generateToken_same_second_collision :
    (0 : Nat) ≠ 500 ∧
    generateToken { jwtSecret := some "secret", maxAge := 3600 }
        { userId := 1, email := "a@b.com" } 0 =
      generateToken { jwtSecret := some "secret", maxAge := 3600 }
        { userId := 1, email := "a@b.com" } 500 :=
  ⟨by decide, rfl⟩

/-- C9 (amended): two tokens issued for the same fixed claims object at
instants lying in different whole seconds are distinct values, because the
signed payload embeds the second-granularity `iat` timestamp. -/
theorem generateToken_distinct_seconds (cfg : Config) (sec : String)
    (p : Claims) (n1 n2 : Nat) (hs : cfg.jwtSecret = some sec)
    (h : n1 / 1000 ≠ n2 / 1000) :
    generateToken cfg p n1 ≠ generateToken cfg p n2 := by
  simp only [generateToken, hs, ne_eq, Except.ok.injEq, SignedToken.mk.injEq]
  intro hEq
  exact h hEq.2.1

/-- Witness for C9 (amended) one second apart. -/
theorem generateToken_distinct_seconds_witness :
    generateToken { jwtSecret := some "secret", maxAge := 3600 }
        { userId := 1, email := "a@b.com" } 0 ≠
      generateToken { jwtSecret := some "secret", maxAge := 3600 }
        { userId := 1, email := "a@b.com" } 1000 :=
  generateToken_distinct_seconds _ "secret" _ 0 1000 rfl (by decide)

/-- C2 (counterexample): an expired well-signed token and a malformed token
produce the very same verification result (`null`), so the expired outcome is
not distinguishable from the malformed outcome. -/
theorem verifyToken_expired_eq_malformed :
    verifyToken (.str (.signed (demoToken "secret" 1))) (some "secret") 2000000 =
      verifyToken (.str (.malformed "garbage")) (some "secret") 2000000 ∧
    verifyToken (.str (.malformed "garbage")) (some "secret") 2000000 =
      .ok none :=
  ⟨rfl, rfl⟩

/-- C2 (amended): verification has three outcomes, none raised as an
exception for a present token: a well-formed unexpired token signed with the
configured secret returns its claims; an expired token returns `null`; a
malformed or wrongly-signed token returns the same `null` — the two negative
outcomes are returned values but are not distinguishable from each other. -/
theorem verifyToken_outcomes (sec : String) (nowMs : Nat) :
    (∀ t : SignedToken, t.secret = sec →
      (∀ e, t.exp = some e → nowMs / 1000 < e) →
      verifyToken (.str (.signed t)) (some sec) nowMs = .ok (some t)) ∧
    (∀ t : SignedToken, t.secret = sec → ∀ e, t.exp = some e →
      e ≤ nowMs / 1000 →
      verifyToken (.str (.signed t)) (some sec) nowMs = .ok none) ∧
    (∀ t : SignedToken, ¬ t.secret = sec →
      verifyToken (.str (.signed t)) (some sec) nowMs = .ok none) ∧
    (∀ raw : String,
      verifyToken (.str (.malformed raw)) (some sec) nowMs = .ok none) := by
  refine ⟨fun t h1 h2 => ?_, fun t h1 e h2 h3 => ?_, fun t h1 => ?_,
    fun raw => rfl⟩
  · have hv : jwtVerify (.signed t) (some sec) nowMs = .ok t := by
      simp only [jwtVerify, if_pos h1]
      cases he : t.exp with
      | none => rfl
      | some e =>
        have hlt := h2 e he
        show (if e ≤ nowMs / 1000 then Except.error JwtError.tokenExpired
          else Except.ok t) = Except.ok t
        rw [if_neg (by omega)]
    simp [verifyToken, hv]
  · have hv : jwtVerify (.signed t) (some sec) nowMs =
        .error .tokenExpired := by
      simp only [jwtVerify, if_pos h1, h2]
      rw [if_pos h3]
    simp [verifyToken, hv]
  · have hv : jwtVerify (.signed t) (some sec) nowMs =
        .error .jsonWebToken := by
      simp only [jwtVerify, if_neg h1]
    simp [verifyToken, hv]

/-- Witness for C2 (amended) at a concrete secret, time and tokens. -/
theorem verifyToken_outcomes_witness :
    verifyToken (.str (.signed (demoToken "secret" 10))) (some "secret") 500 =
      .ok (some (demoToken "secret" 10)) ∧
    verifyToken (.str (.signed (demoToken "wrong" 10))) (some "secret") 500 =
      .ok none :=
  ⟨(verifyToken_outcomes "secret" 500).1 (demoToken "secret" 10) rfl
      (by intro e he; simp only [demoToken, Option.some.injEq] at he; omega),
   (verifyToken_outcomes "secret" 500).2.2.1 (demoToken "wrong" 10)
      (by decide)⟩

/-- C3 (counterexample): an entry whose recorded expiry `0` lies in the past
(query at 1 ms) is reported not revoked but is NOT removed from the store:
the JS guard `if (!expiration)` is already true for the number `0` and
returns before the eviction branch. -/
theorem isBlacklisted_zero_expiry_kept :
    blGet [(Jwt.malformed "t", 0)] (.malformed "t") = some 0 ∧
    (0 : Nat) < 1 ∧
    (isBlacklisted [(Jwt.malformed "t", 0)] (.malformed "t") 1).1 = false ∧
    (isBlacklisted [(Jwt.malformed "t", 0)] (.malformed "t") 1).2 =
      [(Jwt.malformed "t", 0)] :=
  ⟨rfl, by decide, rfl, rfl⟩

/-- C3 (amended): a revocation query on a token whose recorded expiry lies in
the past returns `false` and evicts the entry whenever that expiry is
nonzero (a recorded expiry of `0` is treated as an absent binding by the JS
falsiness guard and left in place); in either case the token never again
reports revoked in any later query on the resulting store. -/
theorem isBlacklisted_expired (bl : Blacklist) (t : Jwt) (e nowMs : Nat)
    (hget : blGet bl t = some e) (hpast : e < nowMs) :
    (isBlacklisted bl t nowMs).1 = false ∧
    (0 < e → blGet (isBlacklisted bl t nowMs).2 t = none) ∧
    (∀ m : Nat, (isBlacklisted (isBlacklisted bl t nowMs).2 t m).1 = false) := by
  by_cases he : e = 0
  · subst he
    have hbl : isBlacklisted bl t nowMs = (false, bl) := by
      simp [isBlacklisted, hget]
    refine ⟨by rw [hbl], fun h0 => absurd h0 (by omega), fun m => ?_⟩
    rw [hbl]
    simp [isBlacklisted, hget]
  · have hbl : isBlacklisted bl t nowMs = (false, blDelete bl t) := by
      simp only [isBlacklisted, hget]
      rw [if_neg he, if_pos (by omega : nowMs > e)]
    refine ⟨by rw [hbl], fun _ => by rw [hbl]; exact blGet_blDelete bl t,
      fun m => ?_⟩
    rw [hbl]
    simp [isBlacklisted, blGet_blDelete bl t]

/-- Witness for C3 (amended): expired nonzero entry answers false and is
evicted, and stays non-revoked afterwards. -/
theorem isBlacklisted_expired_witness :
    (isBlacklisted [(Jwt.malformed "a", 5)] (.malformed "a") 10).1 = false ∧
    blGet (isBlacklisted [(Jwt.malformed "a", 5)] (.malformed "a") 10).2
      (.malformed "a") = none ∧
    (isBlacklisted (isBlacklisted [(Jwt.malformed "a", 5)]
      (.malformed "a") 10).2 (.malformed "a") 3).1 = false :=
  ⟨(isBlacklisted_expired [(Jwt.malformed "a", 5)] (.malformed "a") 5 10
      (by decide) (by decide)).1,
   (isBlacklisted_expired [(Jwt.malformed "a", 5)] (.malformed "a") 5 10
      (by decide) (by decide)).2.1 (by decide),
   (isBlacklisted_expired [(Jwt.malformed "a", 5)] (.malformed "a") 5 10
      (by decide) (by decide)).2.2 3⟩

/-- Example user row used in concrete instances. -/
def demoUser : User :=
  { id := 1, email := "a@b.com", name := "A", password := .ofPassword "Abcdef1!" }

/-- The three negative login conditions named by claim C5: Zod validation
failure (missing or malformed fields), no user with the given email, or a
wrong password for an existing user. -/
def loginFails (users : List User) (inp : LoginInput) : Prop :=
  validateLogin inp = none ∨
  (∃ em pw, validateLogin inp = some (em, pw) ∧
    findUserByEmailWithPassword users em = none) ∨
  (∃ em pw u, validateLogin inp = some (em, pw) ∧
    findUserByEmailWithPassword users em = some u ∧
    comparePassword (.str pw) u.password = false)

/-- Every negative login branch throws the same generic error. -/
theorem login_fails_invalid_credentials (cfg : Config) (users : List User)
    (inp : LoginInput) (nowMs : Nat) (h : loginFails users inp) :
    login cfg users inp nowMs = .error "Invalid credentials" := by
  rcases h with h | ⟨em, pw, hv, hu⟩ | ⟨em, pw, u, hv, hu, hc⟩
  · simp [login, h]
  · simp [login, hv, hu]
  · simp [login, hv, hu, hc]

/-- C5: for every failing login input — missing or malformed fields, no user
with the given email, or a wrong password for an existing user — `login`
fails with the identical generic `Invalid credentials` value: any two
failing runs produce equal error values. -/
theorem login_uniform_failure (cfg1 cfg2 : Config) (users1 users2 : List User)
    (in1 in2 : LoginInput) (n1 n2 : Nat)
    (h1 : loginFails users1 in1) (h2 : loginFails users2 in2) :
    login cfg1 users1 in1 n1 = .error "Invalid credentials" ∧
    login cfg1 users1 in1 n1 = login cfg2 users2 in2 n2 := by
  have e1 := login_fails_invalid_credentials cfg1 users1 in1 n1 h1
  have e2 := login_fails_invalid_credentials cfg2 users2 in2 n2 h2
  exact ⟨e1, e1.trans e2.symm⟩

/-- Witness for C5: a missing-email run and a wrong-password run yield the
same failure value. -/
theorem login_uniform_failure_witness :
    login { jwtSecret := some "secret", maxAge := 3600 } []
        { email := .missing, password := .str "x" } 0 =
      .error "Invalid credentials" ∧
    login { jwtSecret := some "secret", maxAge := 3600 } []
        { email := .missing, password := .str "x" } 0 =
      login { jwtSecret := some "secret", maxAge := 3600 } [demoUser]
        { email := .str "a@b.com", password := .str "wrong" } 5 :=
  login_uniform_failure _ _ _ [demoUser] _ _ 0 5 (Or.inl rfl)
    (Or.inr (Or.inr ⟨"a@b.com", "wrong", demoUser, rfl, rfl, rfl⟩))

/-- C6 (counterexample): `register` of `service.js` on a duplicate email
fails with `'Email already exists'` — a message naming the pre-existing
account — and not with one cause-hiding generic error (the blacklist-aware
iteration uses `'Registration failed'` for the same state). -/
theorem registerSvc_reveals_duplicate :
    (registerSvc { jwtSecret := some "secret", maxAge := 3600 } [demoUser]
        { email := "a@b.com", password := "Abcdef1!", name := "B" } 0).1 =
      .error "Email already exists" ∧
    "Email already exists" ≠ "Registration failed" :=
  ⟨rfl, by decide⟩

/-- C6 (amended): on a syntactically valid input whose email already belongs
to an existing user, the blacklist-aware `register` fails with the single
generic `'Registration failed'` (independent of the matched record, and
leaving the user table unchanged), while the `service.js` iteration instead
fails with `'Email already exists'`, which does reveal that the cause was a
pre-existing account. -/
theorem register_duplicate_behavior (cfg : Config) (users : List User)
    (v : RegisterValid) (nowMs : Nat) (u : PublicUser)
    (h8 : 8 ≤ v.password.length) (h15 : v.password.length ≤ 15)
    (hup : hasUppercase v.password = true) (hsym : hasSymbol v.password = true)
    (hdup : findUserByEmail users v.email = some u) :
    (registerBL cfg users v nowMs).1 = .error "Registration failed" ∧
    (registerBL cfg users v nowMs).2 = users ∧
    (registerSvc cfg users v nowMs).1 = .error "Email already exists" := by
  have hh := hashPassword_ok v.password h8 h15 hup hsym
  refine ⟨?_, ?_, ?_⟩ <;> simp [registerBL, registerSvc, hh, hdup]

/-- Witness for C6 (amended) at a concrete duplicate registration. -/
theorem register_duplicate_behavior_witness :
    (registerBL { jwtSecret := some "secret", maxAge := 3600 } [demoUser]
        { email := "a@b.com", password := "Abcdef1!", name := "B" } 0).1 =
      .error "Registration failed" :=
  (register_duplicate_behavior { jwtSecret := some "secret", maxAge := 3600 }
      [demoUser] { email := "a@b.com", password := "Abcdef1!", name := "B" } 0
      (sanitizeUser demoUser) (by decide) (by decide) (by decide) (by decide)
      rfl).1

/-- The successor record `rotate` creates. -/
def rotatedRecord (newHash : String) (userId expiresAt : Nat) : RefreshRecord :=
  { tokenHash := newHash, userId := userId, expiresAt := expiresAt,
    revoked := false, replacedBy := none }

/-- The store produced by a successful `rotate`: the old row revoked and
linked, the successor row appended. -/
def rotatedStore (st : RTStore) (oldHash newHash : String)
    (userId expiresAt : Nat) : RTStore :=
  (st.map (revokeRow oldHash (some newHash))) ++
    [rotatedRecord newHash userId expiresAt]

/-- `revokeRow` never changes the key column. -/
theorem revokeRow_tokenHash (h : String) (rep : Option String)
    (r : RefreshRecord) : (revokeRow h rep r).tokenHash = r.tokenHash := by
  unfold revokeRow
  split <;> rfl

/-- Key membership is unchanged by the revocation update. -/
theorem any_map_revokeRow (st : RTStore) (h : String) (rep : Option String)
    (h2 : String) :
    ((st.map (revokeRow h rep)).any fun r => r.tokenHash = h2) =
      (st.any fun r => r.tokenHash = h2) := by
  induction st with
  | nil => rfl
  | cons a tl ih => simp [List.any_cons, revokeRow_tokenHash, ih]

/-- Unique-key lookup commutes with the revocation update. -/
theorem find?_map_revokeRow (st : RTStore) (h : String) (rep : Option String)
    (h2 : String) :
    ((st.map (revokeRow h rep)).find? fun r => r.tokenHash = h2) =
      (st.find? fun r => r.tokenHash = h2).map (revokeRow h rep) := by
  induction st with
  | nil => rfl
  | cons a tl ih =>
    by_cases ha : a.tokenHash = h2
    · simp [List.find?_cons, revokeRow_tokenHash, ha]
    · simp [List.find?_cons, revokeRow_tokenHash, ha, ih]

/-- A lookup that succeeds on the left part of an append decides the whole
lookup. -/
theorem find?_append_some {α : Type} (p : α → Bool) (l1 l2 : List α) (a : α)
    (h : l1.find? p = some a) : (l1 ++ l2).find? p = some a := by
  induction l1 with
  | nil => simp at h
  | cons x tl ih =>
    rw [List.cons_append]
    by_cases hx : p x
    · rw [List.find?_cons_of_pos _ hx] at h ⊢
      exact h
    · rw [List.find?_cons_of_neg _ hx] at h ⊢
      exact ih h

/-- A lookup that fails on the left part of an append defers to the right. -/
theorem find?_append_none {α : Type} (p : α → Bool) (l1 l2 : List α)
    (h : l1.find? p = none) : (l1 ++ l2).find? p = l2.find? p := by
  induction l1 with
  | nil => rfl
  | cons x tl ih =>
    by_cases hx : p x
    · rw [List.find?_cons_of_pos _ hx] at h
      exact absurd h (by simp)
    · rw [List.find?_cons_of_neg _ hx] at h
      rw [List.cons_append, List.find?_cons_of_neg _ hx]
      exact ih h

/-- C1: refresh-token rotation is all-or-nothing.  For a currently valid old
record: when the new hash is fresh, `rotate` returns the new record and a
store in which the old record is revoked and linked to the new one via
`replacedBy` and the new record exists unrevoked; when creating the new
record fails (hash already present), the returned store is the input store
unchanged — the old record is not left revoked. -/
theorem rotate_atomic (st : RTStore) (oldHash newHash : String)
    (userId expiresAt nowMs : Nat) (r : RefreshRecord)
    (hfind : findRefreshToken st oldHash = some r)
    (hrev : r.revoked = false) (hexp : nowMs < r.expiresAt) :
    ((st.any fun x => x.tokenHash = newHash) = false →
      rotate st oldHash newHash userId expiresAt =
        (.ok (rotatedRecord newHash userId expiresAt),
         rotatedStore st oldHash newHash userId expiresAt) ∧
      findRefreshToken (rotatedStore st oldHash newHash userId expiresAt)
          oldHash =
        some { r with revoked := true, replacedBy := some newHash } ∧
      findRefreshToken (rotatedStore st oldHash newHash userId expiresAt)
          newHash =
        some (rotatedRecord newHash userId expiresAt)) ∧
    ((st.any fun x => x.tokenHash = newHash) = true →
      rotate st oldHash newHash userId expiresAt = (.error (), st)) := by
  have hmem : r ∈ st := List.mem_of_find?_eq_some hfind
  have hfind' : (st.find? fun x => x.tokenHash = oldHash) = some r := hfind
  have hrh : r.tokenHash = oldHash := by
    have := List.find?_some hfind'
    simpa using this
  have hany_old : (st.any fun x => x.tokenHash = oldHash) = true :=
    List.any_eq_true.mpr ⟨r, hmem, by simp [hrh]⟩
  constructor
  · intro hnew
    have hrot : rotate st oldHash newHash userId expiresAt =
        (.ok (rotatedRecord newHash userId expiresAt),
         rotatedStore st oldHash newHash userId expiresAt) := by
      simp only [rotate, revokeRefreshToken, hany_old, if_true,
        createRefreshToken, any_map_revokeRow, hnew, Bool.false_eq_true,
        if_false, rotatedStore, rotatedRecord]
    refine ⟨hrot, ?_, ?_⟩
    · have hfind_map : ((st.map (revokeRow oldHash (some newHash))).find?
          fun x => x.tokenHash = oldHash) =
            some (revokeRow oldHash (some newHash) r) := by
        rw [find?_map_revokeRow, hfind']
        rfl
      unfold findRefreshToken rotatedStore
      rw [find?_append_some _ _ _ _ hfind_map]
      simp [revokeRow, hrh]
    · have hnone : (st.find? fun x => x.tokenHash = newHash) = none := by
        rw [List.find?_eq_none]
        intro x hx
        rw [List.any_eq_false] at hnew
        simpa using hnew x hx
      have hmapnone : ((st.map (revokeRow oldHash (some newHash))).find?
          fun x => x.tokenHash = newHash) = none := by
        rw [find?_map_revokeRow, hnone]
        rfl
      unfold findRefreshToken rotatedStore
      rw [find?_append_none _ _ _ hmapnone]
      simp [rotatedRecord]
  · intro hnew
    simp only [rotate, revokeRefreshToken, hany_old, if_true,
      createRefreshToken, any_map_revokeRow, hnew, if_true]

/-- Example refresh-token row used in concrete instances. -/
def demoOldRec : RefreshRecord :=
  { tokenHash := "old", userId := 1, expiresAt := 10000, revoked := false,
    replacedBy := none }

/-- Witness for C1: a concrete successful rotation and a concrete failing
one (new hash already taken), the latter leaving the store untouched. -/
theorem rotate_atomic_witness :
    rotate [demoOldRec] "old" "new" 1 20000 =
      (.ok (rotatedRecord "new" 1 20000),
       rotatedStore [demoOldRec] "old" "new" 1 20000) ∧
    rotate [demoOldRec, rotatedRecord "new" 2 1] "old" "new" 1 20000 =
      (.error (), [demoOldRec, rotatedRecord "new" 2 1]) :=
  ⟨((rotate_atomic [demoOldRec] "old" "new" 1 20000 5000 demoOldRec rfl rfl
      (by decide)).1 (by decide)).1,
   (rotate_atomic [demoOldRec, rotatedRecord "new" 2 1] "old" "new" 1 20000
      5000 demoOldRec rfl rfl (by decide)).2 (by decide)⟩

/-- Verdict when the head row carries the queried hash. -/
theorem refreshTokenValid_cons_pos (a : RefreshRecord) (tl : RTStore)
    (h : String) (nowMs : Nat) (ha : a.tokenHash = h) :
    refreshTokenValid (a :: tl) h nowMs =
      (!a.revoked && decide (nowMs < a.expiresAt)) := by
  unfold refreshTokenValid findRefreshToken
  rw [List.find?_cons_of_pos _ (by simp [ha])]

/-- Verdict skips a head row with a different hash. -/
theorem refreshTokenValid_cons_neg (a : RefreshRecord) (tl : RTStore)
    (h : String) (nowMs : Nat) (ha : ¬ a.tokenHash = h) :
    refreshTokenValid (a :: tl) h nowMs = refreshTokenValid tl h nowMs := by
  unfold refreshTokenValid findRefreshToken
  rw [List.find?_cons_of_neg _ (by simp [ha])]

/-- C7: the validity verdict for a raw refresh token is unchanged by running
`cleanupExpiredRefreshTokens` first: the check verifies `expiresAt` and
`revoked` itself, and cleanup only deletes rows that were already invalid. -/
theorem refreshTokenValid_cleanup_invariant (st : RTStore) (h : String)
    (nowMs : Nat) (hnd : (st.map fun r => r.tokenHash).Nodup) :
    refreshTokenValid (cleanupExpiredRefreshTokens st nowMs) h nowMs =
      refreshTokenValid st h nowMs := by
  induction st with
  | nil => rfl
  | cons a tl ih =>
    simp only [List.map_cons, List.nodup_cons, List.mem_map] at hnd
    obtain ⟨hna, hnd'⟩ := hnd
    by_cases hk : a.expiresAt < nowMs ∨ a.revoked = true
    · have hdrop : cleanupExpiredRefreshTokens (a :: tl) nowMs =
          cleanupExpiredRefreshTokens tl nowMs := by
        unfold cleanupExpiredRefreshTokens
        rw [List.filter_cons, if_neg (by simp [hk])]
      by_cases ha : a.tokenHash = h
      · have hnone : ((cleanupExpiredRefreshTokens tl nowMs).find?
            fun r => r.tokenHash = h) = none := by
          rw [List.find?_eq_none]
          intro x hx
          have hx' : x ∈ tl := List.mem_of_mem_filter hx
          have hxh : ¬ x.tokenHash = a.tokenHash := fun hEq =>
            hna ⟨x, hx', hEq⟩
          rw [ha] at hxh
          simp [hxh]
        have h2 : refreshTokenValid (cleanupExpiredRefreshTokens tl nowMs) h
            nowMs = false := by
          unfold refreshTokenValid findRefreshToken
          rw [hnone]
        have h1 : refreshTokenValid (a :: tl) h nowMs = false := by
          rw [refreshTokenValid_cons_pos a tl h nowMs ha]
          rcases hk with hk | hk
          · simp [Nat.lt_asymm hk]
          · simp [hk]
        rw [hdrop, h2, h1]
      · rw [hdrop, refreshTokenValid_cons_neg a tl h nowMs ha]
        exact ih hnd'
    · have hkeep : cleanupExpiredRefreshTokens (a :: tl) nowMs =
          a :: cleanupExpiredRefreshTokens tl nowMs := by
        unfold cleanupExpiredRefreshTokens
        rw [List.filter_cons, if_pos (by simp [hk])]
      by_cases ha : a.tokenHash = h
      · rw [hkeep, refreshTokenValid_cons_pos a _ h nowMs ha,
          refreshTokenValid_cons_pos a tl h nowMs ha]
      · rw [hkeep, refreshTokenValid_cons_neg a _ h nowMs ha,
          refreshTokenValid_cons_neg a tl h nowMs ha]
        exact ih hnd'

/-- Witness for C7: cleanup does not change the verdict on a store holding a
live row and an expired row. -/
theorem refreshTokenValid_cleanup_invariant_witness :
    refreshTokenValid (cleanupExpiredRefreshTokens
        [demoOldRec, rotatedRecord "new" 2 1] 5000) "new" 5000 =
      refreshTokenValid [demoOldRec, rotatedRecord "new" 2 1] "new" 5000 :=
  refreshTokenValid_cleanup_invariant [demoOldRec, rotatedRecord "new" 2 1]
    "new" 5000 (by decide)

/-- `verifyToken` accepts an unexpired token signed with the given secret. -/
theorem verifyToken_valid (t : SignedToken) (sec : String) (n e : Nat)
    (hts : t.secret = sec) (hte : t.exp = some e) (hv : n / 1000 < e) :
    verifyToken (.str (.signed t)) (some sec) n = .ok (some t) := by
  have hjwt : jwtVerify (.signed t) (some sec) n = .ok t := by
    simp only [jwtVerify, if_pos hts, hte]
    show (if e ≤ n / 1000 then Except.error JwtError.tokenExpired
      else Except.ok t) = Except.ok t
    rw [if_neg (by omega)]
  simp [verifyToken, hjwt]

/-- A freshly set binding is found at its key. -/
theorem blGet_cons_self (l : Blacklist) (t : Jwt) (v : Nat) :
    blGet ((t, v) :: l) t = some v := by
  simp only [blGet]
  rw [List.find?_cons_of_pos _ (by simp)]
  rfl

/-- A present, nonzero, not-yet-passed expiry reports revoked and leaves the
store unchanged. -/
theorem isBlacklisted_live (bl : Blacklist) (t : Jwt) (n v : Nat)
    (hget : blGet bl t = some v) (hv0 : ¬ v = 0) (hlt : ¬ n > v) :
    isBlacklisted bl t n = (true, bl) := by
  simp only [isBlacklisted, hget]
  rw [if_neg hv0, if_neg hlt]

/-- The binding just written by `addToBlacklist` is found, with the absolute
expiry `now + expiresIn * 1000` (the opportunistic sweep never removes it,
since that expiry is not in the past). -/
theorem blGet_addToBlacklist_self (bl : Blacklist) (t : Jwt) (k n : Nat) :
    blGet (addToBlacklist bl t k n) t = some (n + k * 1000) := by
  unfold addToBlacklist
  split
  · unfold cleanupExpiredTokens blSet
    rw [List.filter_cons, if_pos (by simp only [decide_eq_true_eq]; omega)]
    exact blGet_cons_self _ t _
  · unfold blSet
    exact blGet_cons_self _ t _

/-- A list without the key filters to nothing at that key. -/
theorem filter_key_nil (l : Blacklist) (t : Jwt)
    (hall : ∀ p ∈ l, ¬ p.1 = t) :
    (l.filter fun p => p.1 = t) = [] := by
  induction l with
  | nil => rfl
  | cons a tl ih =>
    rw [List.filter_cons, if_neg (by simp [hall a (by simp)])]
    exact ih fun p hp => hall p (by simp [hp])

/-- After `addToBlacklist`, the store holds exactly one binding for the
written token: the one just written. -/
theorem filter_addToBlacklist_self (bl : Blacklist) (t : Jwt) (k n : Nat) :
    ((addToBlacklist bl t k n).filter fun p => p.1 = t) =
      [(t, n + k * 1000)] := by
  have hall : ∀ p ∈ bl.filter fun p => ¬ p.1 = t, ¬ p.1 = t := by
    intro p hp
    have h := List.mem_filter.mp hp
    simpa using h.2
  unfold addToBlacklist
  split
  · unfold cleanupExpiredTokens blSet
    rw [List.filter_cons, if_pos (by simp only [decide_eq_true_eq]; omega)]
    rw [List.filter_cons, if_pos (by simp)]
    rw [filter_key_nil _ t fun p hp => hall p (List.mem_of_mem_filter hp)]
  · unfold blSet
    rw [List.filter_cons, if_pos (by simp)]
    rw [filter_key_nil _ t hall]

/-- `logout` on a verifying token with a nonzero `userId` claim succeeds and
records the token with its remaining lifetime. -/
theorem logout_ok (cfg : Config) (users : List User) (bl : Blacklist)
    (t : SignedToken) (sec : String) (e n : Nat)
    (hsec : cfg.jwtSecret = some sec) (hts : t.secret = sec)
    (hte : t.exp = some e) (huid : ¬ t.claims.userId = 0)
    (hv : n / 1000 < e) :
    logout cfg ⟨users, bl⟩ (.str (.signed t)) n =
      (.ok "Logout successful",
       ⟨users, addToBlacklist bl (.signed t) (e - n / 1000) n⟩) := by
  have hvt := verifyToken_valid t sec n e hts hte hv
  have hne : ¬ e = 0 := by omega
  simp only [logout, hsec, hvt]
  simp [huid, hte, hne]

/-- C4: for an access token accepted by verification and bound to an
existing user: before logout, `getCurrentUser` succeeds with that user;
logout succeeds, recording the token's remaining lifetime; afterwards
`getCurrentUser` with the same token fails with the authentication error
`'Invalid or expired token'` at every instant at which the token is still
unexpired. -/
theorem logout_then_getCurrentUser (cfg : Config) (users : List User)
    (bl : Blacklist) (t : SignedToken) (sec : String) (e n1 : Nat)
    (u : PublicUser)
    (hsec : cfg.jwtSecret = some sec) (hts : t.secret = sec)
    (hte : t.exp = some e) (huid : ¬ t.claims.userId = 0)
    (huser : findUserById users t.claims.userId = some u)
    (hbl : blGet bl (.signed t) = none) (hv1 : n1 / 1000 < e) :
    (getCurrentUser cfg ⟨users, bl⟩ (.str (.signed t)) n1).1 = .ok u ∧
    (logout cfg ⟨users, bl⟩ (.str (.signed t)) n1).1 =
      .ok "Logout successful" ∧
    (∀ n2, n2 / 1000 < e →
      (getCurrentUser cfg (logout cfg ⟨users, bl⟩ (.str (.signed t)) n1).2
          (.str (.signed t)) n2).1 = .error "Invalid or expired token") := by
  have hvt1 := verifyToken_valid t sec n1 e hts hte hv1
  have hlog := logout_ok cfg users bl t sec e n1 hsec hts hte huid hv1
  have hibl : isBlacklisted bl (.signed t) n1 = (false, bl) := by
    simp only [isBlacklisted, hbl]
  refine ⟨?_, by simp only [hlog], ?_⟩
  · simp only [getCurrentUser, hsec, hvt1]
    simp [hibl, huid, huser]
  · intro n2 hv2
    have hvt2 := verifyToken_valid t sec n2 e hts hte hv2
    have hne0 : ¬ n1 + (e - n1 / 1000) * 1000 = 0 := by omega
    have hngt : ¬ n2 > n1 + (e - n1 / 1000) * 1000 := by omega
    have hibl2 := isBlacklisted_live
      (addToBlacklist bl (.signed t) (e - n1 / 1000) n1) (.signed t) n2
      (n1 + (e - n1 / 1000) * 1000)
      (blGet_addToBlacklist_self bl (.signed t) (e - n1 / 1000) n1) hne0 hngt
    rw [hlog]
    simp only [getCurrentUser, hsec, hvt2]
    simp [hibl2]

/-- Witness for C4 at a concrete token, user and instants 500 ms (logout)
and 1500 ms (rejected query), within the 2 s token lifetime. -/
theorem logout_then_getCurrentUser_witness :
    (getCurrentUser { jwtSecret := some "secret", maxAge := 3600 }
        ⟨[demoUser], []⟩ (.str (.signed (demoToken "secret" 2))) 500).1 =
      .ok (sanitizeUser demoUser) ∧
    (getCurrentUser { jwtSecret := some "secret", maxAge := 3600 }
        (logout { jwtSecret := some "secret", maxAge := 3600 }
          ⟨[demoUser], []⟩ (.str (.signed (demoToken "secret" 2))) 500).2
        (.str (.signed (demoToken "secret" 2))) 1500).1 =
      .error "Invalid or expired token" :=
  ⟨(logout_then_getCurrentUser { jwtSecret := some "secret", maxAge := 3600 }
      [demoUser] [] (demoToken "secret" 2) "secret" 2 500
      (sanitizeUser demoUser) rfl rfl rfl (by decide) rfl rfl
      (by decide)).1,
   (logout_then_getCurrentUser { jwtSecret := some "secret", maxAge := 3600 }
      [demoUser] [] (demoToken "secret" 2) "secret" 2 500
      (sanitizeUser demoUser) rfl rfl rfl (by decide) rfl rfl
      (by decide)).2.2 1500 (by decide)⟩

/-- C10: logout is idempotent at the public interface: a second logout with
a token that still verifies succeeds as well (logout never consults the
revocation store before revoking), and afterwards the store holds exactly
one entry for that token, whose expiry is the one computed by the last
call. -/
theorem logout_idempotent (cfg : Config) (users : List User) (bl : Blacklist)
    (t : SignedToken) (sec : String) (e n1 n2 : Nat)
    (hsec : cfg.jwtSecret = some sec) (hts : t.secret = sec)
    (hte : t.exp = some e) (huid : ¬ t.claims.userId = 0)
    (hv1 : n1 / 1000 < e) (hv2 : n2 / 1000 < e) :
    (logout cfg ⟨users, bl⟩ (.str (.signed t)) n1).1 =
      .ok "Logout successful" ∧
    (logout cfg (logout cfg ⟨users, bl⟩ (.str (.signed t)) n1).2
        (.str (.signed t)) n2).1 = .ok "Logout successful" ∧
    ((logout cfg (logout cfg ⟨users, bl⟩ (.str (.signed t)) n1).2
        (.str (.signed t)) n2).2.blacklist.filter fun p => p.1 = .signed t) =
      [(.signed t, n2 + (e - n2 / 1000) * 1000)] := by
  have h1 := logout_ok cfg users bl t sec e n1 hsec hts hte huid hv1
  have h2 := logout_ok cfg users
    (addToBlacklist bl (.signed t) (e - n1 / 1000) n1) t sec e n2 hsec hts
    hte huid hv2
  refine ⟨by simp only [h1], by simp only [h1, h2], ?_⟩
  simp only [h1, h2]
  exact filter_addToBlacklist_self _ (.signed t) (e - n2 / 1000) n2

/-- Witness for C10 at a concrete token and instants 500 ms and 900 ms. -/
theorem logout_idempotent_witness :
    (logout { jwtSecret := some "secret", maxAge := 3600 }
        (logout { jwtSecret := some "secret", maxAge := 3600 }
          ⟨[demoUser], []⟩ (.str (.signed (demoToken "secret" 2))) 500).2
        (.str (.signed (demoToken "secret" 2))) 900).1 =
      .ok "Logout successful" ∧
    ((logout { jwtSecret := some "secret", maxAge := 3600 }
        (logout { jwtSecret := some "secret", maxAge := 3600 }
          ⟨[demoUser], []⟩ (.str (.signed (demoToken "secret" 2))) 500).2
        (.str (.signed (demoToken "secret" 2))) 900).2.blacklist.filter
      fun p => p.1 = .signed (demoToken "secret" 2)) =
      [(.signed (demoToken "secret" 2), 2900)] :=
  ⟨(logout_idempotent { jwtSecret := some "secret", maxAge := 3600 }
      [demoUser] [] (demoToken "secret" 2) "secret" 2 500 900 rfl rfl rfl
      (by decide) (by decide) (by decide)).2.1,
   (logout_idempotent { jwtSecret := some "secret", maxAge := 3600 }
      [demoUser] [] (demoToken "secret" 2) "secret" 2 500 900 rfl rfl rfl
      (by decide) (by decide) (by decide)).2.2⟩

end JTracker
